import Mathlib

/-!
Shallow embedding of the Ax generation-strategy core
(`ax/modelbridge/generation_node.py` and
`ax/modelbridge/generation_strategy.py`) and verification of its
natural-language specification.

Opaque collaborators (surrogate models, metric fetching, persistence) are
represented abstractly: a model's `gen` is an oracle indexed by a global
draw counter, and experiment data is reduced to the set of trial indices
that have attached data rows (the only aspect of a `Data` object this core
inspects is its `trial_index` column and emptiness).
-/

deriving instance DecidableEq for Except

namespace AxSpec

/-- Trial lifecycle status (`ax.core.base_trial.TrialStatus`); only the
statuses consulted by the generation-strategy core are embedded. -/
inductive TrialStatus where
  | candidate
  | staged
  | running
  | completed
  | failed
  | abandoned
  | earlyStopped
  deriving DecidableEq

/-- Modelled from the spec: `TrialStatus.is_running` (the experiment
collaborator's status predicate; `ax.core.base_trial` is not under `src/`).
Per the glossary, `RUNNING` is the only running status here. -/
def TrialStatus.is_running : TrialStatus → Bool
  | .running => true
  | _ => false

/-- One concrete parameterization proposed for evaluation; only its
signature is consulted by the core (for deduplication). -/
structure Arm where
  signature : String
  deriving DecidableEq

/-- One batch of arms produced by a single model `gen` call, tagged by
`GenerationStep.gen` with the producing step's index. -/
structure GeneratorRun where
  arms : List Arm
  generation_step_index : Option Int
  deriving DecidableEq

/-- A trial as seen by the core: its originating generation-step index and
its lifecycle status. -/
structure Trial where
  generation_step_index : Option Int
  status : TrialStatus
  deriving DecidableEq

/-- The experiment collaborator, reduced to the read interface the core
uses: trials keyed by index, the arms-by-signature index (keys only),
the set of trial indices with attached data rows, and the names of metrics
available while trials run. -/
structure Experiment where
  name : String
  trials : List (Nat × Trial)
  arms_by_signature : Finset String
  data_trials : Finset Nat
  metrics_available_while_running : List String

/-- `Experiment.trial_indices_by_status` of the experiment collaborator:
indices of trials currently in the given status. -/
def Experiment.trial_indices_by_status (e : Experiment) (s : TrialStatus) : Finset Nat :=
  ((e.trials.filter (fun p => decide (p.2.status = s))).map Prod.fst).toFinset

/-- `Experiment.lookup_data(trial_indices=...)`: the data rows attached for
the requested trials, reduced to the set of trial indices with rows. -/
def Experiment.lookup_data (e : Experiment) (trial_indices : Finset Nat) : Finset Nat :=
  e.data_trials ∩ trial_indices

/-- A generation step's model reference: a registry entry, a factory
callable, or (to express the dynamic-typing check in `__post_init__`)
an invalid reference that is neither. -/
inductive ModelRef where
  | registry (key : String)
  | factory (key : String)
  | invalid
  deriving DecidableEq

/-- Typed errors raised by the core (`ax.exceptions`), as tags; message
text is not modelled. -/
inductive GSErr where
  | dataRequired
  | completed
  | maxParallelism (step_index : Int) (model_name : String) (num_running : Nat)
  | repeatedPoints
  | noData
  | unsupported
  | experimentMismatch
  | invalidState
  | indexError
  | runtime
  deriving DecidableEq

/-- `GenerationStep` declarative configuration. `model_kwargs`,
`model_gen_kwargs` and the wrapped `ModelSpec` are opaque to the control
flow embedded here and are omitted; `index` is not a field because it is
reassigned to the step's position when the owning strategy is constructed,
so step functions receive the index explicitly. `completion_criteria`
entries are the collaborator predicates `is_met(experiment)`. -/
structure GenerationStep where
  model : ModelRef
  num_trials : Int
  completion_criteria : List (Experiment → Bool) := []
  min_trials_observed : Int := 0
  max_parallelism : Option Int := none
  use_update : Bool := false
  enforce_num_trials : Bool := true
  should_deduplicate : Bool := false
  model_name : String := ""

namespace GenerationStep

/-- `GenerationStep.trial_indices`, evaluated at key `key`: indices of the
experiment's trials whose generation-step index equals `key`, restricted
(as in the source) to steps up to and including this step's `index`. -/
def trial_indices (e : Experiment) (index : Int) (key : Int) : Finset Nat :=
  ((e.trials.filter (fun p =>
      decide (p.2.generation_step_index = some key) && decide (key ≤ index))).map
    Prod.fst).toFinset

/-- `GenerationStep.num_can_complete`: this step's trials minus those that
will never complete (status `FAILED` or `ABANDONED`). -/
def num_can_complete (e : Experiment) (index : Int) : Nat :=
  (trial_indices e index index).card -
    (trial_indices e index index ∩
      (e.trial_indices_by_status .failed ∪ e.trial_indices_by_status .abandoned)).card

/-- `GenerationStep._num_completed`: this step's trials in status
`COMPLETED` or `EARLY_STOPPED`. -/
def num_completed (e : Experiment) (index : Int) : Nat :=
  (trial_indices e index index ∩
    (e.trial_indices_by_status .completed ∪
      e.trial_indices_by_status .earlyStopped)).card

/-- `GenerationStep.num_trials_to_gen_and_complete`. -/
def num_trials_to_gen_and_complete (step : GenerationStep) (e : Experiment)
    (index : Int) : Int × Int :=
  if step.num_trials = -1 then (-1, -1)
  else
    (max (step.num_trials - num_can_complete e index) 0,
     max (step.min_trials_observed - num_completed e index) 0)

/-- `GenerationStep.num_running_trials`: count of this step's trials in a
running status. -/
def num_running_trials (e : Experiment) (index : Int) : Nat :=
  (e.trials.filter (fun p =>
      decide (p.2.generation_step_index = some index) && p.2.status.is_running)).length

/-- `GenerationStep.num_remaining_trials_until_max_parallelism`. -/
def num_remaining_trials_until_max_parallelism (step : GenerationStep) (index : Int)
    (e : Experiment) (raise_on_exceeded : Bool) : Except GSErr (Option Int) :=
  match step.max_parallelism with
  | none => .ok none
  | some mp =>
    if raise_on_exceeded && decide (mp ≤ (num_running_trials e index : Int)) then
      .error (.maxParallelism index step.model_name (num_running_trials e index))
    else
      .ok (some (mp - num_running_trials e index))

/-- `GenerationStep.get_data_for_fit`: fetch (or take the passed-in) data,
then check the empty-data invalid state. -/
def get_data_for_fit (step : GenerationStep) (e : Experiment)
    (passed_in_data : Option (Finset Nat))
    (previous_step_required_observations : Bool) : Except GSErr (Finset Nat) :=
  match (match passed_in_data with
         | none =>
           if step.use_update then
             if e.metrics_available_while_running.isEmpty then
               Except.ok (e.lookup_data (e.trial_indices_by_status .completed))
             else
               Except.error GSErr.unsupported
           else
             Except.ok e.data_trials
         | some d => Except.ok d) with
  | .error err => .error err
  | .ok data =>
    if data = ∅ ∧ previous_step_required_observations then .error .noData
    else .ok data

end GenerationStep

/-- The count the spec describes for `num_can_complete`: this step's trials
whose status is neither `FAILED` nor `ABANDONED`. -/
def specNumCanComplete (e : Experiment) (index : Int) : Nat :=
  (e.trials.filter (fun p =>
      decide (p.2.generation_step_index = some index) &&
      !decide (p.2.status = .failed) && !decide (p.2.status = .abandoned))).length

/-- The count the spec describes for `_num_completed`: this step's trials
in status `COMPLETED` or `EARLY_STOPPED`. -/
def specNumCompleted (e : Experiment) (index : Int) : Nat :=
  (e.trials.filter (fun p =>
      decide (p.2.generation_step_index = some index) &&
      (decide (p.2.status = .completed) || decide (p.2.status = .earlyStopped)))).length

/-- Truthiness of the optional arms-by-signature dictionary (a `None` or
empty dict disables deduplication in the source's boolean expression). -/
def dedup_map_truthy : Option (Finset String) → Bool
  | none => false
  | some m => !(decide (m = ∅))

/-- Whether any arm of the produced generator run collides with the
supplied arms-by-signature index. -/
def has_duplicate_arm (gr : GeneratorRun) (arms_by_signature : Option (Finset String)) :
    Bool :=
  gr.arms.any (fun a => decide (a.signature ∈ arms_by_signature.getD ∅))

/-- The `while should_generate_run` loop of `GenerationNode.gen`. The
model's `gen` is an oracle indexed by a global draw counter. The source's
`n_gen_draws` counter (which raises once it exceeds
`max_gen_draws_for_deduplication`) is represented by the remaining draw
budget `max_gen_draws_for_deduplication - n_gen_draws`, so the recursion is
structural; the raise happens exactly on the draw where the source's
incremented counter first exceeds the limit. -/
def gen_loop (should_deduplicate : Bool) (arms_by_signature : Option (Finset String))
    (model_gen : Nat → Except GSErr GeneratorRun) (draw_counter remaining : Nat) :
    Except GSErr (GeneratorRun × Nat) :=
  match model_gen draw_counter with
  | .error err => .error err
  | .ok generator_run =>
    if should_deduplicate && dedup_map_truthy arms_by_signature &&
        has_duplicate_arm generator_run arms_by_signature then
      match remaining with
      | 0 => .error .repeatedPoints
      | r + 1 =>
        gen_loop should_deduplicate arms_by_signature model_gen (draw_counter + 1) r
    else
      .ok (generator_run, draw_counter + 1)

/-- `GenerationNode.gen`: draw from the model, retrying while the produced
candidates collide with known arm signatures, up to
`max_gen_draws_for_deduplication` retries; returns the produced generator
run and the advanced draw counter. -/
def GenerationNode.gen (should_deduplicate : Bool)
    (model_gen : Nat → Except GSErr GeneratorRun) (draw_counter : Nat)
    (max_gen_draws_for_deduplication : Nat)
    (arms_by_signature_for_deduplication : Option (Finset String)) :
    Except GSErr (GeneratorRun × Nat) :=
  gen_loop should_deduplicate arms_by_signature_for_deduplication model_gen
    draw_counter max_gen_draws_for_deduplication

/-- `GenerationStep.gen`: delegates to `GenerationNode.gen` and tags the
produced generator run with this step's index. -/
def GenerationStep.gen (step : GenerationStep) (index : Int)
    (model_gen : Nat → Except GSErr GeneratorRun) (draw_counter : Nat)
    (max_gen_draws_for_deduplication : Nat)
    (arms_by_signature_for_deduplication : Option (Finset String)) :
    Except GSErr (GeneratorRun × Nat) :=
  match GenerationNode.gen step.should_deduplicate model_gen draw_counter
      max_gen_draws_for_deduplication arms_by_signature_for_deduplication with
  | .error err => .error err
  | .ok (gr, ctr) => .ok ({ gr with generation_step_index := some index }, ctr)

/-- The deterministic model stub of C2: a fixed duplicate arm on each of
the first five draws, a unique arm on the sixth. -/
def stubModelC2 : Nat → Except GSErr GeneratorRun := fun i =>
  if i < 5 then .ok ⟨[⟨"dup"⟩], none⟩ else .ok ⟨[⟨"unique"⟩], none⟩

/-- The deduplicating generation step used in the C2 scenario. -/
def stepC2 : GenerationStep :=
  ⟨.registry "GPEI", 5, [], 0, none, false, true, true, "GPEI"⟩

/-- `GenerationStrategy` mutable state. Each step's `index` equals its
position in `steps` (reassigned this way at construction), so the
current-step pointer is the position `curr`. The fitted-model cache
`_model` is opaque (`Option Unit`); `seen_trial_indices_by_status` is the
snapshot taken by `_save_seen_trial_indices`. -/
structure GenerationStrategyState where
  name : Option String
  steps : List GenerationStep
  curr : Nat
  generator_runs : List GeneratorRun
  experiment_name : Option String
  model : Option Unit
  seen_trial_indices_by_status : Option (TrialStatus → Finset Nat)

/-- `GenerationStrategy._maybe_move_to_next_step`; returns the
whether-moved flag (or the raised error) together with the state after the
call (exceptions leave the state as already mutated, which here is always
the entry state). -/
def maybe_move_to_next_step (gs : GenerationStrategyState) (e : Experiment)
    (raise_data_required_error : Bool) :
    (Except GSErr Bool) × GenerationStrategyState :=
  match gs.steps[gs.curr]? with
  | none => (.error .invalidState, gs)
  | some curr =>
    if (curr.num_trials_to_gen_and_complete e gs.curr).1 = -1 ∧
        (curr.num_trials_to_gen_and_complete e gs.curr).2 = -1 then
      if 0 < curr.completion_criteria.length ∧
          curr.completion_criteria.all (fun c => c e) = true then
        if gs.steps.length = gs.curr + 1 then (.error .completed, gs)
        else (.ok true, { gs with curr := gs.curr + 1, model := none })
      else (.ok false, gs)
    else
      if 0 < (curr.num_trials_to_gen_and_complete e gs.curr).1 ∨
          0 < (curr.num_trials_to_gen_and_complete e gs.curr).2 then
        if raise_data_required_error = true ∧ curr.enforce_num_trials = true ∧
            ¬ 0 < (curr.num_trials_to_gen_and_complete e gs.curr).1 then
          (.error .dataRequired, gs)
        else (.ok false, gs)
      else if gs.steps.length = gs.curr + 1 then (.error .completed, gs)
      else (.ok true, { gs with curr := gs.curr + 1, model := none })

/-- The step of the C1 witness: budget 1, one observation required,
enforcement on. -/
def stepC1 : GenerationStep :=
  ⟨.registry "Sobol", 1, [], 1, none, false, true, false, "Sobol"⟩

/-- The strategy state of the C1 witness. -/
def gsC1 : GenerationStrategyState := ⟨none, [stepC1], 0, [], none, none, none⟩

/-- The experiment of the C1 witness: the step's single trial is still
running. -/
def expC1 : Experiment := ⟨"exp", [(0, ⟨some 0, .running⟩)], ∅, ∅, []⟩

/-- A call made on the opaque model collaborator during
`_fit_or_update_current_model`, with the data (set of trial indices with
rows) it carries. -/
inductive ModelCall where
  | fit (data : Finset Nat)
  | update (data : Finset Nat)
  deriving DecidableEq

/-- `GenerationStrategy._find_trials_completed_since_last_gen`. -/
def find_trials_completed_since_last_gen (gs : GenerationStrategyState)
    (e : Experiment) : Finset Nat :=
  match gs.seen_trial_indices_by_status with
  | none => e.trial_indices_by_status .completed
  | some seen => e.trial_indices_by_status .completed \ seen .completed

/-- `GenerationStrategy._get_data_for_update`. -/
def get_data_for_update (gs : GenerationStrategyState) (e : Experiment)
    (passed_in_data : Option (Finset Nat)) : Option (Finset Nat) :=
  if find_trials_completed_since_last_gen gs e = ∅ then none
  else
    match passed_in_data with
    | none =>
      if e.lookup_data (find_trials_completed_since_last_gen gs e) = ∅ then none
      else some (e.lookup_data (find_trials_completed_since_last_gen gs e))
    | some d =>
      if d = ∅ then none
      else some (d ∩ find_trials_completed_since_last_gen gs e)

/-- `GenerationStrategy._save_seen_trial_indices`. -/
def save_seen_trial_indices (gs : GenerationStrategyState) (e : Experiment) :
    GenerationStrategyState :=
  { gs with seen_trial_indices_by_status := some e.trial_indices_by_status }

/-- `GenerationStrategy._fit_or_update_current_model`; the third component
records the calls made on the opaque model collaborator (`fit` calls via
`_fit_current_model`, `update` calls via `_update_current_model`). -/
def fit_or_update_current_model (gs : GenerationStrategyState) (e : Experiment)
    (data : Option (Finset Nat)) :
    (Except GSErr Unit) × GenerationStrategyState × List ModelCall :=
  match gs.steps[gs.curr]? with
  | none => (.error .invalidState, gs, [])
  | some curr =>
    if gs.model.isSome && curr.use_update then
      match get_data_for_update gs e data with
      | none => (.ok (), save_seen_trial_indices gs e, [])
      | some new_data => (.ok (), save_seen_trial_indices gs e, [.update new_data])
    else
      match curr.get_data_for_fit e data
          (decide (0 < gs.curr) &&
            ((gs.steps[gs.curr - 1]?).elim false
              (fun p => decide (0 < p.min_trials_observed)))) with
      | .error err => (.error err, gs, [])
      | .ok d =>
        (.ok (), { save_seen_trial_indices gs e with model := some () }, [.fit d])

/-- The incremental-update step of the C7 scenario. -/
def stepC7 : GenerationStep :=
  ⟨.registry "GPEI", 5, [], 0, none, true, true, false, "GPEI"⟩

/-- The C7 strategy state: current model cached, snapshot saw trials 0 and
1 completed. -/
def gsC7 : GenerationStrategyState :=
  ⟨none, [stepC7], 0, [], some "exp", some (),
    some (fun s => match s with | .completed => {0, 1} | _ => ∅)⟩

/-- The C7 experiment in which trial 2 completed since the snapshot but has
no attached data rows. -/
def expC7NoData : Experiment :=
  ⟨"exp",
    [(0, ⟨some 0, .completed⟩), (1, ⟨some 0, .completed⟩), (2, ⟨some 0, .completed⟩)],
    ∅, {0, 1}, []⟩

/-- The C7 experiment in which trial 2 completed since the snapshot and has
data attached. -/
def expC7Data : Experiment :=
  ⟨"exp",
    [(0, ⟨some 0, .completed⟩), (1, ⟨some 0, .completed⟩), (2, ⟨some 0, .completed⟩)],
    ∅, {0, 1, 2}, []⟩

/-- `MAX_GEN_DRAWS` module constant (default deduplication retry limit). -/
def MAX_GEN_DRAWS : Nat := 5

/-- Modelled from the spec: `extend_pending_observations` (in
`ax.modelbridge.modelbridge_utils`, not under `src/`) — "extend the
pending_observations map with the newly proposed candidates"; a pending
map is reduced to the list of pending arm signatures. -/
def extend_pending_observations (pending : List String) (gr : GeneratorRun) :
    List String :=
  pending ++ gr.arms.map Arm.signature

/-- The generator-run loop of `GenerationStrategy._gen_multiple`. Pending
maps live in a store (list of maps) and are mutated through the reference
`pending_ref`, so the deep-copy semantics of the source are observable.
A data-required error from the step's `gen` propagates only when no
generator run has been produced yet; otherwise the runs produced so far are
returned. Every produced run is appended to the strategy's chronological
history. -/
def gen_multiple_loop (curr : GenerationStep) (curr_index : Int)
    (model_gen : Nat → Except GSErr GeneratorRun)
    (arms_by_signature : Option (Finset String)) (count : Nat)
    (gs : GenerationStrategyState) (store : List (List String)) (pending_ref : Nat)
    (draw_counter : Nat) (generator_runs : List GeneratorRun) :
    (Except GSErr (List GeneratorRun)) × GenerationStrategyState ×
      List (List String) × Nat :=
  match count with
  | 0 => (.ok generator_runs, gs, store, draw_counter)
  | k + 1 =>
    match curr.gen curr_index model_gen draw_counter MAX_GEN_DRAWS
        arms_by_signature with
    | .error .dataRequired =>
      if generator_runs = [] then (.error .dataRequired, gs, store, draw_counter)
      else (.ok generator_runs, gs, store, draw_counter)
    | .error err => (.error err, gs, store, draw_counter)
    | .ok (gr, ctr) =>
      gen_multiple_loop curr curr_index model_gen arms_by_signature k
        { gs with generator_runs := gs.generator_runs ++ [gr] }
        (store.set pending_ref
          (extend_pending_observations (store.getD pending_ref []) gr))
        pending_ref ctr (generator_runs ++ [gr])

/-- The clamping of `num_generator_runs` in `_gen_multiple`: first to the
remaining parallelism, then (for an enforced positive budget) to the
remaining step budget. -/
def clamp_num_generator_runs (num_generator_runs : Int) (num_until : Option Int)
    (curr : GenerationStep) (e : Experiment) (curr_index : Int) : Int :=
  if curr.enforce_num_trials = true ∧ 0 < curr.num_trials then
    min
      (match num_until with
       | none => num_generator_runs
       | some k => min num_generator_runs k)
      (curr.num_trials - GenerationStep.num_can_complete e curr_index)
  else
    match num_until with
    | none => num_generator_runs
    | some k => min num_generator_runs k

/-- `GenerationStrategy._gen_multiple`: bind the experiment, run the step
transition, fit or update the current model, clamp the requested number of
runs, deep-copy the caller's pending-observations map into a fresh store
slot, and run the generator loop. Returns the result (or raised error)
together with the state, the store, and the advanced draw counter. -/
def gen_multiple (gs0 : GenerationStrategyState) (e : Experiment)
    (num_generator_runs : Int) (data : Option (Finset Nat))
    (model_gen : Nat → Except GSErr GeneratorRun) (draw_counter : Nat)
    (store : List (List String)) (pending_ref : Option Nat) :
    (Except GSErr (List GeneratorRun)) × GenerationStrategyState ×
      List (List String) × Nat :=
  if gs0.experiment_name = none ∨ gs0.experiment_name = some e.name then
    match maybe_move_to_next_step { gs0 with experiment_name := some e.name } e true with
    | (.error err, gs2) => (.error err, gs2, store, draw_counter)
    | (.ok _, gs2) =>
      match fit_or_update_current_model gs2 e data with
      | (.error err, gs3, _) => (.error err, gs3, store, draw_counter)
      | (.ok _, gs3, _) =>
        match gs3.steps[gs3.curr]? with
        | none => (.error .invalidState, gs3, store, draw_counter)
        | some curr =>
          match curr.num_remaining_trials_until_max_parallelism gs3.curr e true with
          | .error err => (.error err, gs3, store, draw_counter)
          | .ok num_until =>
            gen_multiple_loop curr gs3.curr model_gen (some e.arms_by_signature)
              (clamp_num_generator_runs num_generator_runs num_until curr e
                gs3.curr).toNat
              gs3
              (store ++ [(pending_ref.elim [] (fun r => store.getD r []))])
              store.length draw_counter []
  else (.error .experimentMismatch, gs0, store, draw_counter)

/-- The non-deduplicating step of the C5 witness. -/
def stepC5 : GenerationStep :=
  ⟨.registry "Sobol", 5, [], 0, none, false, true, false, "Sobol"⟩

/-- The model oracle of the C5 witness: one successful draw, then a
data-required failure. -/
def stubModelC5 : Nat → Except GSErr GeneratorRun := fun i =>
  if i = 0 then .ok ⟨[⟨"a"⟩], none⟩ else .error .dataRequired

/-- `GenerationStrategy.current_generator_run_limit`: probe (with the
data-required error suppressed) how many generator runs can currently be
produced and whether the optimization is completed; the probe may still
advance the step pointer. -/
def current_generator_run_limit (gs : GenerationStrategyState) (e : Experiment) :
    (Except GSErr (Int × Bool)) × GenerationStrategyState :=
  match maybe_move_to_next_step gs e false with
  | (res, gs2) =>
    (match res with
     | .error .completed => .ok (0, true)
     | .error err => .error err
     | .ok _ =>
       match gs2.steps[gs2.curr]? with
       | none => .error .invalidState
       | some curr =>
         if (curr.num_trials_to_gen_and_complete e gs2.curr).1 < -1 then
           .error .runtime
         else
           match curr.num_remaining_trials_until_max_parallelism gs2.curr e false with
           | .error err => .error err
           | .ok (some k) =>
             if (curr.num_trials_to_gen_and_complete e gs2.curr).1 = -1 then
               .ok (k, false)
             else
               .ok (min (curr.num_trials_to_gen_and_complete e gs2.curr).1 k, false)
           | .ok none =>
             .ok ((curr.num_trials_to_gen_and_complete e gs2.curr).1, false),
     gs2)

/-- `GenerationStrategy.gen`: a single-run `_gen_multiple` call, indexing
the first returned generator run (an empty batch surfaces as an index
error, as the source's `[0]` would). -/
def GenerationStrategyState.gen (gs : GenerationStrategyState) (e : Experiment)
    (data : Option (Finset Nat)) (model_gen : Nat → Except GSErr GeneratorRun)
    (draw_counter : Nat) (store : List (List String)) (pending_ref : Option Nat) :
    (Except GSErr GeneratorRun) × GenerationStrategyState ×
      List (List String) × Nat :=
  ((gen_multiple gs e 1 data model_gen draw_counter store pending_ref).1.bind
      (fun runs =>
        match runs with
        | [] => .error .indexError
        | r :: _ => .ok r),
    (gen_multiple gs e 1 data model_gen draw_counter store pending_ref).2)

/-- One public operation on a generation strategy, as invoked by the
scheduler: single-run `gen`, multi-run `_gen_multiple`, or the
`current_generator_run_limit` probe. -/
inductive GSOp where
  | genOne (e : Experiment) (data : Option (Finset Nat))
      (model_gen : Nat → Except GSErr GeneratorRun) (pending_ref : Option Nat)
  | genMany (e : Experiment) (num : Int) (data : Option (Finset Nat))
      (model_gen : Nat → Except GSErr GeneratorRun) (pending_ref : Option Nat)
  | runLimit (e : Experiment)

/-- A strategy configuration: the strategy state plus the pending-map store
and the global model draw counter. -/
structure GSConfig where
  gs : GenerationStrategyState
  store : List (List String)
  draw_counter : Nat

/-- Execute one public operation, keeping the resulting state (results and
errors are discarded for the purpose of state evolution). -/
def exec_op (c : GSConfig) : GSOp → GSConfig
  | .genOne e data mg ref =>
    match c.gs.gen e data mg c.draw_counter c.store ref with
    | (_, gs2, store2, ctr2) => ⟨gs2, store2, ctr2⟩
  | .genMany e num data mg ref =>
    match gen_multiple c.gs e num data mg c.draw_counter c.store ref with
    | (_, gs2, store2, ctr2) => ⟨gs2, store2, ctr2⟩
  | .runLimit e => ⟨(current_generator_run_limit c.gs e).2, c.store, c.draw_counter⟩

/-- The single-budget step of the C4 scenario. -/
def stepC4 : GenerationStep :=
  ⟨.registry "Sobol", 1, [], 0, none, false, true, false, "Sobol"⟩

/-- The fresh strategy of the C4 scenario. -/
def gsC4 : GenerationStrategyState := ⟨none, [stepC4], 0, [], none, none, none⟩

/-- C4 scenario, first experiment state: the step's single trial is
running, so the budget is exhausted and nothing is left to complete. -/
def expC4Running : Experiment := ⟨"exp", [(0, ⟨some 0, .running⟩)], ∅, ∅, []⟩

/-- C4 scenario, second experiment state: the same trial has failed, so it
no longer counts against the budget. -/
def expC4Failed : Experiment := ⟨"exp", [(0, ⟨some 0, .failed⟩)], ∅, ∅, []⟩

/-- The model oracle of the C4 scenario. -/
def stubModelC4 : Nat → Except GSErr GeneratorRun := fun _ => .ok ⟨[⟨"a"⟩], none⟩

/-- The `name` property trims a leading "get_" off factory-derived step
model names. -/
def trim_factory_name (n : String) : String :=
  if n.take 4 = "get_" then n.drop 4 else n

/-- The name the `GenerationStrategy.name` property derives when no name
was supplied: the steps' (trimmed) model names joined with "+". -/
def name_computed (gs : GenerationStrategyState) : String :=
  String.intercalate "+" (gs.steps.map (fun s => trim_factory_name s.model_name))

/-- The `GenerationStrategy.name` property: returns the cached name if set;
otherwise derives it and caches it on the strategy (a state mutation). -/
def name_property (gs : GenerationStrategyState) :
    String × GenerationStrategyState :=
  match gs.name with
  | some n => (n, gs)
  | none => (name_computed gs, { gs with name := some (name_computed gs) })

/-- The state built by `GenerationStrategy.__init__` for the given name and
steps: empty run history, current step reset to the first step, no bound
experiment, no cached model, no snapshot. (Construction-time validation is
modelled separately by `construct_strategy_error`.) -/
def init_strategy (name : Option String) (steps : List GenerationStep) :
    GenerationStrategyState :=
  ⟨name, steps, 0, [], none, none, none⟩

/-- `GenerationStrategy.clone_reset`:
`GenerationStrategy(name=self.name, steps=deepcopy(self._steps))`. Returns
the clone together with the original as it is after the call (reading the
`name` property may fill the original's name cache). -/
def clone_reset (gs : GenerationStrategyState) :
    GenerationStrategyState × GenerationStrategyState :=
  match name_property gs with
  | (n, gs2) => (init_strategy (some n) gs2.steps, gs2)

/-- The unnamed one-step strategy of the C9 counterexample; the step's
model name carries a factory-style "get_" whose trimming is observable in
the cached name. -/
def gsC9 : GenerationStrategyState :=
  ⟨none, [⟨.factory "get_sobol", 5, [], 0, none, false, true, false, "get_sobol"⟩],
    0, [], none, none, none⟩

/-- Configuration errors raised at step/strategy construction, as tags. -/
inductive ConfigError where
  | minTrialsObservedGtNumTrials
  | invalidModel
  | unlimitedNonLast
  | numTrialsNotPositive
  | maxParallelismNonPositive
  deriving DecidableEq

/-- `GenerationStep.__post_init__` validation: the budget/min-observed
relationship, then the model-reference type check. -/
def GenerationStep.post_init_error (s : GenerationStep) : Option ConfigError :=
  if s.enforce_num_trials = true ∧ 0 ≤ s.num_trials ∧
      s.num_trials < s.min_trials_observed then
    some .minTrialsObservedGtNumTrials
  else
    match s.model with
    | .invalid => some .invalidModel
    | _ => none

/-- The per-step checks of the `GenerationStrategy.__init__` loop: the
unlimited-budget / positive-budget check, then the parallelism-cap check. -/
def strategy_step_error (total : Nat) (idx : Nat) (s : GenerationStep) :
    Option ConfigError :=
  match (if s.num_trials = -1 ∧ s.completion_criteria.length < 1 then
           (if idx < total - 1 then some ConfigError.unlimitedNonLast else none)
         else if s.num_trials < 1 ∧ s.num_trials ≠ -1 then
           some ConfigError.numTrialsNotPositive
         else none) with
  | some c => some c
  | none =>
    match s.max_parallelism with
    | some mp => if mp < 1 then some .maxParallelismNonPositive else none
    | none => none

/-- The `for idx, step in enumerate(self._steps)` validation loop of
`GenerationStrategy.__init__`, reporting the first error. -/
def strategy_init_error_loop (total : Nat) : Nat → List GenerationStep →
    Option ConfigError
  | _, [] => none
  | idx, s :: rest =>
    match strategy_step_error total idx s with
    | some c => some c
    | none => strategy_init_error_loop total (idx + 1) rest

/-- Constructing a `GenerationStrategy` from step configurations: each
step's `__post_init__` runs first (in order), then the strategy's
validation loop; the first configuration error is reported. -/
def construct_strategy_error (steps : List GenerationStep) : Option ConfigError :=
  match steps.findSome? GenerationStep.post_init_error with
  | some c => some c
  | none => strategy_init_error_loop steps.length 0 steps

/-- The spec's list of admissible step configurations, per the claim (plus
the positive-budget requirement the code enforces): no bad
budget/min-observed relationship, a model or callable model reference, a
positive parallelism cap when set, unlimited budget without completion
criteria only on the final step, and a budget that is positive or -1. -/
def step_config_ok (total : Nat) (idx : Nat) (s : GenerationStep) : Prop :=
  ¬(s.enforce_num_trials = true ∧ 0 ≤ s.num_trials ∧
      s.num_trials < s.min_trials_observed) ∧
  s.model ≠ .invalid ∧
  (∀ mp, s.max_parallelism = some mp → 1 ≤ mp) ∧
  (s.num_trials = -1 ∧ s.completion_criteria.length = 0 → ¬ idx < total - 1) ∧
  (1 ≤ s.num_trials ∨ s.num_trials = -1)

/-- The otherwise-valid step with `num_trials = 0` of the C8 scenario. -/
def stepC8 : GenerationStep :=
  ⟨.registry "Sobol", 0, [], 0, none, false, true, false, "Sobol"⟩

section Accounting

/-- With distinct trial keys, a key-set built from a filtered trial list
has cardinality equal to the filtered list's length. -/
theorem toFinset_filter_card (l : List (Nat × Trial)) (p : Nat × Trial → Bool)
    (h : (l.map Prod.fst).Nodup) :
    ((l.filter p).map Prod.fst).toFinset.card = (l.filter p).length := by
  have hsub : ((l.filter p).map Prod.fst).Sublist (l.map Prod.fst) :=
    (List.filter_sublist l).map Prod.fst
  have hnd : ((l.filter p).map Prod.fst).Nodup := h.sublist hsub
  rw [List.toFinset_card_of_nodup hnd, List.length_map]

/-- With distinct trial keys, two trial entries sharing a key coincide. -/
theorem key_functional {l : List (Nat × Trial)} (h : (l.map Prod.fst).Nodup)
    {x : Nat} {t t' : Trial} (h1 : (x, t) ∈ l) (h2 : (x, t') ∈ l) : t = t' := by
  have := List.inj_on_of_nodup_map h h1 h2 rfl
  exact congrArg Prod.snd this

/-- Membership in a key-set built from a filtered trial list. -/
theorem mem_filtered_keys (l : List (Nat × Trial)) (p : Nat × Trial → Bool) (x : Nat) :
    x ∈ ((l.filter p).map Prod.fst).toFinset ↔
      ∃ t : Trial, (x, t) ∈ l ∧ p (x, t) = true := by
  simp only [List.mem_toFinset, List.mem_map, List.mem_filter]
  constructor
  · rintro ⟨⟨a, b⟩, ⟨hmem, hp⟩, rfl⟩
    exact ⟨b, hmem, hp⟩
  · rintro ⟨t, hmem, hp⟩
    exact ⟨(x, t), ⟨hmem, hp⟩, rfl⟩

theorem num_can_complete_eq_spec (e : Experiment) (index : Int)
    (h : (e.trials.map Prod.fst).Nodup) :
    GenerationStep.num_can_complete e index = specNumCanComplete e index := by
  unfold GenerationStep.num_can_complete
  rw [show (GenerationStep.trial_indices e index index).card -
      (GenerationStep.trial_indices e index index ∩
        (e.trial_indices_by_status .failed ∪
          e.trial_indices_by_status .abandoned)).card =
      (GenerationStep.trial_indices e index index \
        (e.trial_indices_by_status .failed ∪
          e.trial_indices_by_status .abandoned)).card from by
    rw [← Finset.sdiff_inter_self_left]
    exact (Finset.card_sdiff Finset.inter_subset_left).symm]
  have hset : GenerationStep.trial_indices e index index \
      (e.trial_indices_by_status .failed ∪ e.trial_indices_by_status .abandoned) =
      ((e.trials.filter (fun p =>
          decide (p.2.generation_step_index = some index) &&
          !decide (p.2.status = .failed) && !decide (p.2.status = .abandoned))).map
        Prod.fst).toFinset := by
    ext x
    rw [Finset.mem_sdiff, Finset.mem_union, GenerationStep.trial_indices,
      Experiment.trial_indices_by_status, Experiment.trial_indices_by_status,
      mem_filtered_keys, mem_filtered_keys, mem_filtered_keys, mem_filtered_keys]
    simp only [Bool.and_eq_true, decide_eq_true_eq, Bool.not_eq_true',
      decide_eq_false_iff_not]
    constructor
    · rintro ⟨⟨t, hmem, hidx, -⟩, hnot⟩
      refine ⟨t, hmem, ⟨hidx, ?_⟩, ?_⟩
      · exact fun hf => hnot (Or.inl ⟨t, hmem, hf⟩)
      · exact fun ha => hnot (Or.inr ⟨t, hmem, ha⟩)
    · rintro ⟨t, hmem, ⟨hidx, hnf⟩, hna⟩
      refine ⟨⟨t, hmem, hidx, le_refl index⟩, ?_⟩
      rintro (⟨t', hmem', hf⟩ | ⟨t', hmem', ha⟩)
      · exact hnf (key_functional h hmem' hmem ▸ hf)
      · exact hna (key_functional h hmem' hmem ▸ ha)
  rw [hset, specNumCanComplete]
  exact toFinset_filter_card e.trials _ h

theorem num_completed_eq_spec (e : Experiment) (index : Int)
    (h : (e.trials.map Prod.fst).Nodup) :
    GenerationStep.num_completed e index = specNumCompleted e index := by
  unfold GenerationStep.num_completed
  have hset : GenerationStep.trial_indices e index index ∩
      (e.trial_indices_by_status .completed ∪
        e.trial_indices_by_status .earlyStopped) =
      ((e.trials.filter (fun p =>
          decide (p.2.generation_step_index = some index) &&
          (decide (p.2.status = .completed) ||
            decide (p.2.status = .earlyStopped)))).map Prod.fst).toFinset := by
    ext x
    rw [Finset.mem_inter, Finset.mem_union, GenerationStep.trial_indices,
      Experiment.trial_indices_by_status, Experiment.trial_indices_by_status,
      mem_filtered_keys, mem_filtered_keys, mem_filtered_keys, mem_filtered_keys]
    simp only [Bool.and_eq_true, Bool.or_eq_true, decide_eq_true_eq]
    constructor
    · rintro ⟨⟨t, hmem, hidx, -⟩, hstat⟩
      refine ⟨t, hmem, hidx, ?_⟩
      rcases hstat with ⟨t', hmem', hc⟩ | ⟨t', hmem', hes⟩
      · exact Or.inl (key_functional h hmem' hmem ▸ hc)
      · exact Or.inr (key_functional h hmem' hmem ▸ hes)
    · rintro ⟨t, hmem, hidx, hstat⟩
      refine ⟨⟨t, hmem, hidx, le_refl index⟩, ?_⟩
      rcases hstat with hc | hes
      · exact Or.inl ⟨t, hmem, hc⟩
      · exact Or.inr ⟨t, hmem, hes⟩
  rw [hset, specNumCompleted]
  exact toFinset_filter_card e.trials _ h

end Accounting

/-- C3: for every `GenerationStep`, `num_trials_to_gen_and_complete` returns
`(-1, -1)` when `num_trials` is `-1`; otherwise it returns
`(max (num_trials - num_can_complete) 0, max (min_trials_observed - num_completed) 0)`
where `num_can_complete` counts this step's trials not in `FAILED` or
`ABANDONED` status and `num_completed` counts this step's trials in
`COMPLETED` or `EARLY_STOPPED` status. -/
theorem num_trials_to_gen_and_complete_spec (step : GenerationStep) (e : Experiment)
    (index : Int) (h : (e.trials.map Prod.fst).Nodup) :
    step.num_trials_to_gen_and_complete e index =
      if step.num_trials = -1 then (-1, -1)
      else
        (max (step.num_trials - specNumCanComplete e index) 0,
         max (step.min_trials_observed - specNumCompleted e index) 0) := by
  rw [GenerationStep.num_trials_to_gen_and_complete,
    num_can_complete_eq_spec e index h, num_completed_eq_spec e index h]

/-- C3 witness: evaluation of the accounting on a concrete experiment with
four trials of one step (one running, one completed, one failed, one
early-stopped) and a budget of 5 with 2 observations required. -/
theorem num_trials_to_gen_and_complete_spec_witness :
    ((⟨.registry "Sobol", 5, [], 2, none, false, true, false,
        "Sobol"⟩ : GenerationStep).num_trials_to_gen_and_complete
      ⟨"exp",
        [(0, ⟨some 0, .running⟩), (1, ⟨some 0, .completed⟩),
         (2, ⟨some 0, .failed⟩), (3, ⟨some 0, .earlyStopped⟩)],
        ∅, ∅, []⟩ 0) = (2, 0) := by
  rw [num_trials_to_gen_and_complete_spec _ _ _ (by decide)]
  decide

/-- C6: `num_remaining_trials_until_max_parallelism` returns `none` when no
parallelism cap is set; raises a max-parallelism error carrying the step
index, model name and running count when the step's running trials meet or
exceed the cap and the raise flag is set; and otherwise returns the cap
minus the running count. -/
theorem num_remaining_trials_until_max_parallelism_spec (step : GenerationStep)
    (index : Int) (e : Experiment) (raise_on_exceeded : Bool) :
    (step.max_parallelism = none →
      step.num_remaining_trials_until_max_parallelism index e raise_on_exceeded =
        .ok none) ∧
    (∀ cap, step.max_parallelism = some cap → raise_on_exceeded = true →
      cap ≤ (GenerationStep.num_running_trials e index : Int) →
      step.num_remaining_trials_until_max_parallelism index e raise_on_exceeded =
        .error (.maxParallelism index step.model_name
          (GenerationStep.num_running_trials e index))) ∧
    (∀ cap, step.max_parallelism = some cap →
      ((GenerationStep.num_running_trials e index : Int) < cap ∨
        raise_on_exceeded = false) →
      step.num_remaining_trials_until_max_parallelism index e raise_on_exceeded =
        .ok (some (cap - GenerationStep.num_running_trials e index))) := by
  unfold GenerationStep.num_remaining_trials_until_max_parallelism
  refine ⟨fun h => by rw [h], fun cap hc hr hle => ?_, fun cap hc hlt => ?_⟩
  · rw [hc, hr]
    simp [decide_eq_true hle]
  · rw [hc]
    rcases hlt with hlt | hflag
    · simp [decide_eq_false (not_le.mpr hlt)]
    · rw [hflag]
      simp

/-- C6 witness: with a cap of 2 and two running trials the call raises the
max-parallelism error; after one of the two trials completes, it returns 1. -/
theorem num_remaining_trials_until_max_parallelism_spec_witness :
    ((⟨.registry "GPEI", 5, [], 0, some 2, false, true, false,
        "GPEI"⟩ : GenerationStep).num_remaining_trials_until_max_parallelism 0
      ⟨"exp", [(0, ⟨some 0, .running⟩), (1, ⟨some 0, .running⟩)], ∅, ∅, []⟩ true =
        .error (.maxParallelism 0 "GPEI" 2)) ∧
    ((⟨.registry "GPEI", 5, [], 0, some 2, false, true, false,
        "GPEI"⟩ : GenerationStep).num_remaining_trials_until_max_parallelism 0
      ⟨"exp", [(0, ⟨some 0, .completed⟩), (1, ⟨some 0, .running⟩)], ∅, ∅, []⟩ true =
        .ok (some 1)) := by
  constructor
  · exact (num_remaining_trials_until_max_parallelism_spec _ 0 _ true).2.1 2 rfl rfl
      (by decide)
  · exact (num_remaining_trials_until_max_parallelism_spec _ 0 _ true).2.2 2 rfl
      (Or.inl (by decide))

/-- C2 counterexample: with the stub that duplicates on the first five
draws and produces a unique arm on the sixth,
`max_gen_draws_for_deduplication = 5` does NOT raise the repeated-points
error — the sixth draw is still within budget and the unique arm is
returned (the raise requires the draw after `max` draws to still collide). -/
theorem gen_dedup_five_draws_succeeds :
    stepC2.gen 0 stubModelC2 0 5 (some {"dup"}) =
      .ok (⟨[⟨"unique"⟩], some 0⟩, 6) ∧
    stepC2.gen 0 stubModelC2 0 5 (some {"dup"}) ≠ .error .repeatedPoints := by
  constructor
  · decide
  · decide

/-- C2 amended: the exhaustion raise fires when the draw made after
`max_gen_draws_for_deduplication` duplicate draws still collides; with the
C2 stub the error therefore requires the limit 4, while limits 5 and 6 both
succeed and return the unique arm. -/
theorem gen_dedup_amended :
    stepC2.gen 0 stubModelC2 0 4 (some {"dup"}) = .error .repeatedPoints ∧
    stepC2.gen 0 stubModelC2 0 5 (some {"dup"}) =
      .ok (⟨[⟨"unique"⟩], some 0⟩, 6) ∧
    stepC2.gen 0 stubModelC2 0 6 (some {"dup"}) =
      .ok (⟨[⟨"unique"⟩], some 0⟩, 6) := by
  refine ⟨by decide, by decide, by decide⟩

theorem num_trials_to_gen_nonneg (curr : GenerationStep) (e : Experiment)
    (index : Int) (hfin : curr.num_trials ≠ -1) :
    0 ≤ (curr.num_trials_to_gen_and_complete e index).1 ∧
      0 ≤ (curr.num_trials_to_gen_and_complete e index).2 := by
  rw [GenerationStep.num_trials_to_gen_and_complete, if_neg hfin]
  exact ⟨le_max_right _ _, le_max_right _ _⟩

/-- Case description of `_maybe_move_to_next_step` for a finite-budget
current step. -/
theorem maybe_move_finite_cases (gs : GenerationStrategyState) (e : Experiment)
    (curr : GenerationStep) (hcurr : gs.steps[gs.curr]? = some curr)
    (hfin : curr.num_trials ≠ -1) (r : Bool) :
    maybe_move_to_next_step gs e r =
      if 0 < (curr.num_trials_to_gen_and_complete e gs.curr).1 ∨
          0 < (curr.num_trials_to_gen_and_complete e gs.curr).2 then
        if r = true ∧ curr.enforce_num_trials = true ∧
            ¬ 0 < (curr.num_trials_to_gen_and_complete e gs.curr).1 then
          (.error .dataRequired, gs)
        else (.ok false, gs)
      else if gs.steps.length = gs.curr + 1 then (.error .completed, gs)
      else (.ok true, { gs with curr := gs.curr + 1, model := none }) := by
  have ha := (num_trials_to_gen_nonneg curr e gs.curr hfin).1
  unfold maybe_move_to_next_step
  rw [hcurr]
  simp only []
  rw [if_neg (by omega)]

/-- C1: for a finite-budget current step, the transition check with the
data-required error enabled raises it exactly when nothing is left to
generate, something is left to complete, and the step enforces its budget;
with the error suppressed no data-required error is ever raised, and in the
error scenario the state is returned unchanged with a no-move result. -/
theorem maybe_move_data_required_iff (gs : GenerationStrategyState) (e : Experiment)
    (curr : GenerationStep) (hcurr : gs.steps[gs.curr]? = some curr)
    (hfin : curr.num_trials ≠ -1) :
    (((maybe_move_to_next_step gs e true).1 = .error .dataRequired) ↔
      ((curr.num_trials_to_gen_and_complete e gs.curr).1 = 0 ∧
        0 < (curr.num_trials_to_gen_and_complete e gs.curr).2 ∧
        curr.enforce_num_trials = true)) ∧
    ((maybe_move_to_next_step gs e false).1 ≠ .error .dataRequired) ∧
    ((curr.num_trials_to_gen_and_complete e gs.curr).1 = 0 →
      0 < (curr.num_trials_to_gen_and_complete e gs.curr).2 →
      maybe_move_to_next_step gs e false = (.ok false, gs)) := by
  have ha := (num_trials_to_gen_nonneg curr e gs.curr hfin).1
  rw [maybe_move_finite_cases gs e curr hcurr hfin true,
    maybe_move_finite_cases gs e curr hcurr hfin false]
  refine ⟨?_, ?_, ?_⟩
  · constructor
    · intro h
      by_cases h1 : 0 < (curr.num_trials_to_gen_and_complete e gs.curr).1 ∨
          0 < (curr.num_trials_to_gen_and_complete e gs.curr).2
      · rw [if_pos h1] at h
        by_cases h2 : (true : Bool) = true ∧ curr.enforce_num_trials = true ∧
            ¬ 0 < (curr.num_trials_to_gen_and_complete e gs.curr).1
        · exact ⟨by omega, by omega, h2.2.1⟩
        · rw [if_neg h2] at h
          exact absurd h (by simp)
      · rw [if_neg h1] at h
        by_cases h3 : gs.steps.length = gs.curr + 1
        · rw [if_pos h3] at h
          exact absurd h (by simp)
        · rw [if_neg h3] at h
          exact absurd h (by simp)
    · rintro ⟨hz, hc, he⟩
      rw [if_pos (Or.inr hc), if_pos ⟨rfl, he, by omega⟩]
  · by_cases h1 : 0 < (curr.num_trials_to_gen_and_complete e gs.curr).1 ∨
        0 < (curr.num_trials_to_gen_and_complete e gs.curr).2
    · rw [if_pos h1, if_neg (by simp)]
      simp
    · rw [if_neg h1]
      by_cases h3 : gs.steps.length = gs.curr + 1
      · rw [if_pos h3]
        simp
      · rw [if_neg h3]
        simp
  · intro hz hc
    rw [if_pos (Or.inr hc), if_neg (by simp)]

/-- C1 witness: the data-required error fires on the concrete boundary
state exactly as characterized. -/
theorem maybe_move_data_required_iff_witness :
    (maybe_move_to_next_step gsC1 expC1 true).1 = .error .dataRequired := by
  exact (maybe_move_data_required_iff gsC1 expC1 stepC1 rfl (by decide)).1.mpr
    ⟨by decide, by decide, rfl⟩

/-- C7 (amended): with a cached current model and an incremental-update
step, a generation cycle performs no model re-fit; it makes exactly one
update call carrying the experiment data for exactly the trials completed
since the last gen-time snapshot, provided that data is non-empty; when no
trials completed since the snapshot — or the newly completed trials have
no attached data — no update call is made. -/
theorem fit_or_update_incremental_spec (gs : GenerationStrategyState)
    (e : Experiment) (curr : GenerationStep)
    (hcurr : gs.steps[gs.curr]? = some curr)
    (hmodel : gs.model = some ()) (hupd : curr.use_update = true) :
    ((∀ d, ModelCall.fit d ∉ (fit_or_update_current_model gs e none).2.2) ∧
     (find_trials_completed_since_last_gen gs e = ∅ →
       (fit_or_update_current_model gs e none).2.2 = []) ∧
     (find_trials_completed_since_last_gen gs e ≠ ∅ →
       e.lookup_data (find_trials_completed_since_last_gen gs e) ≠ ∅ →
       (fit_or_update_current_model gs e none).2.2 =
         [.update (e.lookup_data (find_trials_completed_since_last_gen gs e))]) ∧
     (find_trials_completed_since_last_gen gs e ≠ ∅ →
       e.lookup_data (find_trials_completed_since_last_gen gs e) = ∅ →
       (fit_or_update_current_model gs e none).2.2 = [])) := by
  have hred : fit_or_update_current_model gs e none =
      match get_data_for_update gs e none with
      | none => (.ok (), save_seen_trial_indices gs e, [])
      | some new_data => (.ok (), save_seen_trial_indices gs e, [.update new_data]) := by
    unfold fit_or_update_current_model
    rw [hcurr]
    simp only [hmodel, hupd, Option.isSome_some, Bool.and_self, if_true]
  refine ⟨?_, ?_, ?_, ?_⟩
  · intro d
    rw [hred]
    rcases h : get_data_for_update gs e none with - | nd
    · simp
    · simp
  · intro hnone
    rw [hred]
    unfold get_data_for_update
    rw [if_pos hnone]
  · intro hnewly hdata
    rw [hred]
    unfold get_data_for_update
    rw [if_neg hnewly]
    simp only [if_neg hdata]
  · intro hnewly hdata
    rw [hred]
    unfold get_data_for_update
    rw [if_neg hnewly]
    simp only [if_pos hdata]

/-- C7 counterexample: trial 2 entered COMPLETED status since the last
snapshot, yet no update call is made, because the data lookup for the newly
completed trials is empty — the claim's unconditional "exactly one update
call" fails. -/
theorem fit_or_update_no_call_on_empty_data :
    find_trials_completed_since_last_gen gsC7 expC7NoData = {2} ∧
    (fit_or_update_current_model gsC7 expC7NoData none).2.2 = [] := by
  refine ⟨by decide, by decide⟩

/-- C7 witness: after a snapshot covering trials 0 and 1, the completion of
trial 2 (with data) produces exactly one update call carrying only trial
2's data, and no fit call. -/
theorem fit_or_update_incremental_spec_witness :
    (fit_or_update_current_model gsC7 expC7Data none).2.2 = [.update {2}] := by
  have h := (fit_or_update_incremental_spec gsC7 expC7Data stepC7 rfl rfl rfl).2.2.1
    (by decide) (by decide)
  rw [h]
  decide

/-- With deduplication off, `GenerationStep.gen` makes exactly one model
draw and tags its result. -/
theorem step_gen_no_dedup (curr : GenerationStep) (index : Int)
    (model_gen : Nat → Except GSErr GeneratorRun) (draw_counter : Nat) (m : Nat)
    (arms : Option (Finset String)) (hd : curr.should_deduplicate = false) :
    curr.gen index model_gen draw_counter m arms =
      match model_gen draw_counter with
      | .error err => .error err
      | .ok gr =>
        .ok ({ gr with generation_step_index := some index }, draw_counter + 1) := by
  cases m <;> cases hm : model_gen draw_counter <;>
    simp [GenerationStep.gen, GenerationNode.gen, gen_loop, hm, hd]

/-- A data-required failure of the step's `gen` after `k ≥ 1` successful
runs (or with runs already accumulated) is swallowed and the accumulated
plus newly produced runs are returned. -/
theorem gen_multiple_loop_swallow (curr : GenerationStep) (index : Int)
    (model_gen : Nat → Except GSErr GeneratorRun) (arms : Option (Finset String))
    (grs : Nat → GeneratorRun) (hd : curr.should_deduplicate = false) :
    ∀ (k : Nat) (acc : List GeneratorRun) (ctr : Nat)
      (gs : GenerationStrategyState) (store : List (List String)) (ref : Nat)
      (count : Nat), k < count → (acc = [] → 1 ≤ k) →
      (∀ i, i < k → model_gen (ctr + i) = .ok (grs (ctr + i))) →
      model_gen (ctr + k) = .error .dataRequired →
      (gen_multiple_loop curr index model_gen arms count gs store ref ctr acc).1 =
        .ok (acc ++ (List.range k).map
          (fun i => { grs (ctr + i) with generation_step_index := some index })) := by
  intro k
  induction k with
  | zero =>
    intro acc ctr gs store ref count hcount hacc hsucc hfail
    match count, hcount with
    | c + 1, _ =>
      rw [gen_multiple_loop, step_gen_no_dedup curr index model_gen ctr _ arms hd]
      have h0 : model_gen ctr = .error .dataRequired := by simpa using hfail
      rw [h0]
      have hne : ¬ acc = [] := fun h => by simpa using hacc h
      simp [hne]
  | succ k ih =>
    intro acc ctr gs store ref count hcount hacc hsucc hfail
    match count, hcount with
    | c + 1, hcount =>
      rw [gen_multiple_loop, step_gen_no_dedup curr index model_gen ctr _ arms hd]
      have h0 : model_gen ctr = .ok (grs ctr) := by
        simpa using hsucc 0 (Nat.succ_pos k)
      rw [h0]
      have hrec := ih
        (acc ++ [{ grs ctr with generation_step_index := some index }]) (ctr + 1)
        { gs with generator_runs := gs.generator_runs ++
            [{ grs ctr with generation_step_index := some index }] }
        (store.set ref
          (extend_pending_observations (store.getD ref [])
            { grs ctr with generation_step_index := some index }))
        ref c (by omega) (by simp)
        (fun i hi => by
          have := hsucc (i + 1) (by omega)
          rwa [show ctr + (i + 1) = ctr + 1 + i from by omega] at this)
        (by rwa [show ctr + 1 + k = ctr + (k + 1) from by omega])
      rw [hrec]
      congr 1
      rw [List.range_succ_eq_map, List.map_cons, List.map_map, List.append_assoc,
        List.singleton_append]
      congr 1
      congr 1
      apply List.map_congr_left
      intro a ha
      simp only [Function.comp_apply]
      rw [show ctr + 1 + a = ctr + Nat.succ a from by omega]

/-- C5: in the `_gen_multiple` loop (deduplication off so each iteration is
one model draw), a data-required error on the very first iteration — when
no generator runs have been produced — propagates to the caller, while the
same error on any later iteration of the batch is swallowed and the runs
produced so far are returned. -/
theorem gen_multiple_data_required_asymmetry (curr : GenerationStep) (index : Int)
    (model_gen : Nat → Except GSErr GeneratorRun) (arms : Option (Finset String))
    (hd : curr.should_deduplicate = false) :
    (∀ (count : Nat) (gs : GenerationStrategyState) (store : List (List String))
      (ref ctr : Nat), 1 ≤ count → model_gen ctr = .error .dataRequired →
      (gen_multiple_loop curr index model_gen arms count gs store ref ctr []).1 =
        .error .dataRequired) ∧
    (∀ (count k : Nat) (grs : Nat → GeneratorRun) (gs : GenerationStrategyState)
      (store : List (List String)) (ref ctr : Nat), 1 ≤ k → k < count →
      (∀ i, i < k → model_gen (ctr + i) = .ok (grs (ctr + i))) →
      model_gen (ctr + k) = .error .dataRequired →
      (gen_multiple_loop curr index model_gen arms count gs store ref ctr []).1 =
        .ok ((List.range k).map
          (fun i => { grs (ctr + i) with generation_step_index := some index }))) := by
  constructor
  · intro count gs store ref ctr hcount hfail
    match count, hcount with
    | c + 1, _ =>
      rw [gen_multiple_loop, step_gen_no_dedup curr index model_gen ctr _ arms hd,
        hfail]
      simp
  · intro count k grs gs store ref ctr hk hcount hsucc hfail
    have := gen_multiple_loop_swallow curr index model_gen arms grs hd k [] ctr gs
      store ref count hcount (fun _ => hk) hsucc hfail
    simpa using this

/-- C5 witness: requesting two runs with the C5 oracle returns the single
successfully produced run (the second iteration's data-required failure is
swallowed); the same oracle shifted to fail immediately propagates. -/
theorem gen_multiple_data_required_asymmetry_witness :
    (gen_multiple_loop stepC5 0 stubModelC5 none 2
        ⟨none, [stepC5], 0, [], none, none, none⟩ [[]] 0 0 []).1 =
      .ok [⟨[⟨"a"⟩], some 0⟩] ∧
    (gen_multiple_loop stepC5 0 stubModelC5 none 2
        ⟨none, [stepC5], 0, [], none, none, none⟩ [[]] 0 1 []).1 =
      .error .dataRequired := by
  constructor
  · have := (gen_multiple_data_required_asymmetry stepC5 0 stubModelC5 none
      rfl).2 2 1 (fun _ => ⟨[⟨"a"⟩], none⟩)
      ⟨none, [stepC5], 0, [], none, none, none⟩ [[]] 0 0 (by decide) (by decide)
      (fun i hi => by interval_cases i <;> decide) (by decide)
    simpa using this
  · exact (gen_multiple_data_required_asymmetry stepC5 0 stubModelC5 none
      rfl).1 2 ⟨none, [stepC5], 0, [], none, none, none⟩ [[]] 0 1 (by decide)
      (by decide)

/-- The generator loop mutates the store only at the pending-map reference
it was given. -/
theorem gen_multiple_loop_store_frame (curr : GenerationStep) (index : Int)
    (model_gen : Nat → Except GSErr GeneratorRun) (arms : Option (Finset String)) :
    ∀ (count : Nat) (gs : GenerationStrategyState) (store : List (List String))
      (ref ctr : Nat) (acc : List GeneratorRun) (r : Nat), r ≠ ref →
      ((gen_multiple_loop curr index model_gen arms count gs store ref ctr acc).2.2.1)[r]? =
        store[r]? := by
  intro count
  induction count with
  | zero => intro gs store ref ctr acc r hr; rfl
  | succ k ih =>
    intro gs store ref ctr acc r hr
    rw [gen_multiple_loop]
    cases hg : curr.gen index model_gen ctr MAX_GEN_DRAWS arms with
    | error err =>
      cases err <;> simp only [] <;> first
        | rfl
        | (by_cases hacc : acc = [] <;> simp [hacc])
    | ok p =>
      cases p with
      | mk gr ctr' =>
        simp only []
        rw [ih]
        · exact List.getElem?_set_ne (fun h => hr h.symm)
        · exact hr

/-- C10: `_gen_multiple` never mutates any pending-observations map that
existed in the store before the call (in particular the caller's): it
deep-copies the supplied map into a fresh slot and extends only the copy,
whether the call returns generator runs or raises. -/
theorem gen_multiple_preserves_caller_pending (gs0 : GenerationStrategyState)
    (e : Experiment) (num_generator_runs : Int) (data : Option (Finset Nat))
    (model_gen : Nat → Except GSErr GeneratorRun) (draw_counter : Nat)
    (store : List (List String)) (pending_ref : Option Nat) (r : Nat)
    (hr : r < store.length) :
    ((gen_multiple gs0 e num_generator_runs data model_gen draw_counter store
        pending_ref).2.2.1)[r]? = store[r]? := by
  unfold gen_multiple
  by_cases hb : gs0.experiment_name = none ∨ gs0.experiment_name = some e.name
  · rw [if_pos hb]
    have hne : r ≠ store.length := by omega
    split
    · rfl
    · split
      · rfl
      · split
        · rfl
        · split
          · rfl
          · rw [gen_multiple_loop_store_frame _ _ _ _ _ _ _ _ _ _ _ hne,
              List.getElem?_append, if_pos hr]
  · rw [if_neg hb]

/-- C10 witness: a concrete end-to-end `_gen_multiple` call (which produces
one generator run and extends its internal pending copy) leaves the
caller's pending map, stored at slot 0, exactly as it was. -/
theorem gen_multiple_preserves_caller_pending_witness :
    ((gen_multiple ⟨none, [stepC5], 0, [], none, none, none⟩
        ⟨"exp", [], ∅, ∅, []⟩ 1 none (fun _ => .ok ⟨[⟨"a"⟩], none⟩) 0
        [["x"]] (some 0)).2.2.1)[0]? = some ["x"] := by
  have := gen_multiple_preserves_caller_pending
    ⟨none, [stepC5], 0, [], none, none, none⟩ ⟨"exp", [], ∅, ∅, []⟩ 1 none
    (fun _ => .ok ⟨[⟨"a"⟩], none⟩) 0 [["x"]] (some 0) 0 (by decide)
  rw [this]
  rfl

theorem maybe_move_curr_mono (gs : GenerationStrategyState) (e : Experiment)
    (r : Bool) : gs.curr ≤ (maybe_move_to_next_step gs e r).2.curr := by
  unfold maybe_move_to_next_step
  split
  · exact Nat.le_refl _
  · split
    · split
      · split
        · exact Nat.le_refl _
        · exact Nat.le_succ _
      · exact Nat.le_refl _
    · split
      · split
        · exact Nat.le_refl _
        · exact Nat.le_refl _
      · split
        · exact Nat.le_refl _
        · exact Nat.le_succ _

theorem fit_or_update_preserves_curr (gs : GenerationStrategyState) (e : Experiment)
    (data : Option (Finset Nat)) :
    (fit_or_update_current_model gs e data).2.1.curr = gs.curr := by
  unfold fit_or_update_current_model
  split
  · rfl
  · split
    · split
      · rfl
      · rfl
    · split
      · rfl
      · rfl

theorem gen_multiple_loop_preserves_curr (curr : GenerationStep) (index : Int)
    (model_gen : Nat → Except GSErr GeneratorRun) (arms : Option (Finset String)) :
    ∀ (count : Nat) (gs : GenerationStrategyState) (store : List (List String))
      (ref ctr : Nat) (acc : List GeneratorRun),
      (gen_multiple_loop curr index model_gen arms count gs store ref ctr acc).2.1.curr =
        gs.curr := by
  intro count
  induction count with
  | zero => intro gs store ref ctr acc; rfl
  | succ k ih =>
    intro gs store ref ctr acc
    rw [gen_multiple_loop]
    cases hg : curr.gen index model_gen ctr MAX_GEN_DRAWS arms with
    | error err =>
      cases err <;> simp only [] <;> first
        | rfl
        | (by_cases hacc : acc = [] <;> simp [hacc])
    | ok p =>
      cases p with
      | mk gr ctr2 =>
        simp only []
        rw [ih]

theorem gen_multiple_curr_mono (gs0 : GenerationStrategyState) (e : Experiment)
    (num : Int) (data : Option (Finset Nat))
    (model_gen : Nat → Except GSErr GeneratorRun) (draw_counter : Nat)
    (store : List (List String)) (pending_ref : Option Nat) :
    gs0.curr ≤ (gen_multiple gs0 e num data model_gen draw_counter store
      pending_ref).2.1.curr := by
  unfold gen_multiple
  split
  · split
    next err gs2 heq =>
      have h := maybe_move_curr_mono { gs0 with experiment_name := some e.name } e true
      rw [heq] at h
      exact h
    next a gs2 heq =>
      have h : gs0.curr ≤ gs2.curr := by
        have h := maybe_move_curr_mono { gs0 with experiment_name := some e.name } e
          true
        rw [heq] at h
        exact h
      split
      next err gs3 calls heq2 =>
        have h2 := fit_or_update_preserves_curr gs2 e data
        rw [heq2] at h2
        exact h.trans h2.ge
      next u gs3 calls heq2 =>
        have h2 : gs3.curr = gs2.curr := by
          have h2 := fit_or_update_preserves_curr gs2 e data
          rw [heq2] at h2
          exact h2
        split
        · exact h.trans h2.ge
        · split
          · exact h.trans h2.ge
          · rw [gen_multiple_loop_preserves_curr]
            exact h.trans h2.ge
  · exact Nat.le_refl _

theorem current_generator_run_limit_state (gs : GenerationStrategyState)
    (e : Experiment) :
    (current_generator_run_limit gs e).2 = (maybe_move_to_next_step gs e false).2 := by
  unfold current_generator_run_limit
  rcases maybe_move_to_next_step gs e false with ⟨res, gs2⟩
  rfl

theorem current_generator_run_limit_curr_mono (gs : GenerationStrategyState)
    (e : Experiment) : gs.curr ≤ (current_generator_run_limit gs e).2.curr := by
  rw [current_generator_run_limit_state]
  exact maybe_move_curr_mono gs e false

theorem exec_op_curr_mono (c : GSConfig) (op : GSOp) :
    c.gs.curr ≤ (exec_op c op).gs.curr := by
  cases op with
  | genOne e data mg ref =>
    rcases hg : c.gs.gen e data mg c.draw_counter c.store ref with
      ⟨res, gs2, store2, ctr2⟩
    have h : c.gs.curr ≤
        (c.gs.gen e data mg c.draw_counter c.store ref).2.1.curr :=
      gen_multiple_curr_mono c.gs e 1 data mg c.draw_counter c.store ref
    rw [hg] at h
    simp only [exec_op, hg]
    exact h
  | genMany e num data mg ref =>
    rcases hg : gen_multiple c.gs e num data mg c.draw_counter c.store ref with
      ⟨res, gs2, store2, ctr2⟩
    have h := gen_multiple_curr_mono c.gs e num data mg c.draw_counter c.store ref
    rw [hg] at h
    simp only [exec_op, hg]
    exact h
  | runLimit e =>
    simp only [exec_op]
    exact current_generator_run_limit_curr_mono c.gs e

/-- `_maybe_move_to_next_step` either leaves the state unchanged or reports
a move with the step pointer advanced by one and the cached model cleared. -/
theorem maybe_move_cases (gs : GenerationStrategyState) (e : Experiment) (r : Bool) :
    (maybe_move_to_next_step gs e r).2 = gs ∨
    ((maybe_move_to_next_step gs e r).1 = .ok true ∧
      (maybe_move_to_next_step gs e r).2 =
        { gs with curr := gs.curr + 1, model := none }) := by
  unfold maybe_move_to_next_step
  split
  · exact Or.inl rfl
  · split
    · split
      · split
        · exact Or.inl rfl
        · exact Or.inr ⟨rfl, rfl⟩
      · exact Or.inl rfl
    · split
      · split
        · exact Or.inl rfl
        · exact Or.inl rfl
      · split
        · exact Or.inl rfl
        · exact Or.inr ⟨rfl, rfl⟩

theorem get_data_for_fit_no_completed (step : GenerationStep) (e : Experiment)
    (d : Option (Finset Nat)) (p : Bool) :
    step.get_data_for_fit e d p ≠ .error .completed := by
  intro hcon
  unfold GenerationStep.get_data_for_fit at hcon
  split at hcon
  next err heq =>
    have herr : err = GSErr.completed := by simpa using hcon
    rw [herr] at heq
    split at heq
    · split at heq
      · split at heq
        · simp at heq
        · simp at heq
      · simp at heq
    · simp at heq
  next dat heq =>
    split at hcon
    · simp at hcon
    · simp at hcon

theorem fit_or_update_no_completed (gs : GenerationStrategyState) (e : Experiment)
    (data : Option (Finset Nat)) :
    (fit_or_update_current_model gs e data).1 ≠ .error .completed := by
  intro hcon
  unfold fit_or_update_current_model at hcon
  split at hcon
  · simp at hcon
  · split at hcon
    · split at hcon
      · simp at hcon
      · simp at hcon
    · split at hcon
      next err heq =>
        have herr : err = GSErr.completed := by simpa using hcon
        rw [herr] at heq
        exact get_data_for_fit_no_completed _ _ _ _ heq
      · simp at hcon

theorem num_remaining_no_completed (step : GenerationStep) (index : Int)
    (e : Experiment) (b : Bool) :
    step.num_remaining_trials_until_max_parallelism index e b ≠ .error .completed := by
  intro hcon
  unfold GenerationStep.num_remaining_trials_until_max_parallelism at hcon
  split at hcon
  · simp at hcon
  · split at hcon
    · simp at hcon
    · simp at hcon

theorem gen_loop_no_completed (dedup : Bool) (arms : Option (Finset String))
    (model_gen : Nat → Except GSErr GeneratorRun)
    (hmg : ∀ i, model_gen i ≠ .error .completed) :
    ∀ (ctr rem : Nat), gen_loop dedup arms model_gen ctr rem ≠ .error .completed := by
  intro ctr rem
  induction rem generalizing ctr with
  | zero =>
    intro hcon
    rw [gen_loop] at hcon
    split at hcon
    next err heq =>
      have herr : err = GSErr.completed := by simpa using hcon
      rw [herr] at heq
      exact hmg ctr heq
    next gr heq =>
      split at hcon
      · simp at hcon
      · simp at hcon
  | succ r ih =>
    intro hcon
    rw [gen_loop] at hcon
    split at hcon
    next err heq =>
      have herr : err = GSErr.completed := by simpa using hcon
      rw [herr] at heq
      exact hmg ctr heq
    next gr heq =>
      split at hcon
      · exact ih (ctr + 1) hcon
      · simp at hcon

theorem step_gen_no_completed (curr : GenerationStep) (index : Int)
    (model_gen : Nat → Except GSErr GeneratorRun) (ctr m : Nat)
    (arms : Option (Finset String))
    (hmg : ∀ i, model_gen i ≠ .error .completed) :
    curr.gen index model_gen ctr m arms ≠ .error .completed := by
  intro hcon
  unfold GenerationStep.gen GenerationNode.gen at hcon
  split at hcon
  next err heq =>
    have herr : err = GSErr.completed := by simpa using hcon
    rw [herr] at heq
    exact gen_loop_no_completed _ _ _ hmg ctr m heq
  next p heq =>
    simp at hcon

theorem gen_multiple_loop_no_completed (curr : GenerationStep) (index : Int)
    (model_gen : Nat → Except GSErr GeneratorRun) (arms : Option (Finset String))
    (hmg : ∀ i, model_gen i ≠ .error .completed) :
    ∀ (count : Nat) (gs : GenerationStrategyState) (store : List (List String))
      (ref ctr : Nat) (acc : List GeneratorRun),
      (gen_multiple_loop curr index model_gen arms count gs store ref ctr acc).1 ≠
        .error .completed := by
  intro count
  induction count with
  | zero =>
    intro gs store ref ctr acc hcon
    rw [gen_multiple_loop] at hcon
    simp at hcon
  | succ k ih =>
    intro gs store ref ctr acc hcon
    rw [gen_multiple_loop] at hcon
    split at hcon
    · split at hcon
      · simp at hcon
      · simp at hcon
    next err hne heq =>
      have herr : err = GSErr.completed := by simpa using hcon
      rw [herr] at heq
      exact step_gen_no_completed curr index model_gen ctr MAX_GEN_DRAWS arms hmg heq
    next gr ctr2 heq =>
      exact ih _ _ _ _ _ hcon

/-- A strategy-completed result of `_gen_multiple` (with a model oracle
that never raises the completion signal itself) can only come from the
step-transition check, which leaves the state at the bound-experiment
variant of the entry state. -/
theorem gen_multiple_completed_state (gs : GenerationStrategyState) (e : Experiment)
    (num : Int) (data : Option (Finset Nat))
    (model_gen : Nat → Except GSErr GeneratorRun) (ctr : Nat)
    (store : List (List String)) (ref : Option Nat)
    (hmg : ∀ i, model_gen i ≠ .error .completed)
    (hres : (gen_multiple gs e num data model_gen ctr store ref).1 =
      .error .completed) :
    maybe_move_to_next_step { gs with experiment_name := some e.name } e true =
      (.error .completed, { gs with experiment_name := some e.name }) ∧
    (gen_multiple gs e num data model_gen ctr store ref).2.1 =
      { gs with experiment_name := some e.name } := by
  unfold gen_multiple at hres ⊢
  split at hres
  next hb =>
    rw [if_pos hb]
    split at hres
    next err gs2 heq =>
      have herr : err = GSErr.completed := by simpa using hres
      rw [herr] at heq
      have hcases := maybe_move_cases { gs with experiment_name := some e.name } e true
      rw [heq] at hcases
      rcases hcases with hstate | ⟨hcon, -⟩
      · have hstate2 : gs2 = { gs with experiment_name := some e.name } := hstate
        rw [hstate2] at heq
        exact ⟨heq, hstate2⟩
      · exact absurd hcon (by simp)
    next a gs2 heq =>
      split at hres
      next err gs3 calls heq2 =>
        have herr : err = GSErr.completed := by simpa using hres
        have hne := fit_or_update_no_completed gs2 e data
        rw [heq2, herr] at hne
        exact absurd rfl hne
      next u gs3 calls heq2 =>
        split at hres
        · simp at hres
        next curr heq3 =>
          split at hres
          next err heq4 =>
            have herr : err = GSErr.completed := by simpa using hres
            rw [herr] at heq4
            exact absurd heq4 (num_remaining_no_completed curr gs3.curr e true)
          next nu heq4 =>
            exact absurd hres
              (gen_multiple_loop_no_completed curr gs3.curr model_gen
                (some e.arms_by_signature) hmg _ _ _ _ _ _)
  next hb =>
    simp at hres

/-- Once `_gen_multiple` has raised the strategy-completed signal, a repeat
generation attempt against the experiment in the same state raises it
again (the raise mutates nothing beyond binding the experiment). -/
theorem gen_multiple_completed_sticky (gs : GenerationStrategyState) (e : Experiment)
    (num : Int) (data : Option (Finset Nat))
    (model_gen : Nat → Except GSErr GeneratorRun) (ctr : Nat)
    (store : List (List String)) (ref : Option Nat)
    (num2 : Int) (data2 : Option (Finset Nat))
    (model_gen2 : Nat → Except GSErr GeneratorRun) (ctr2 : Nat)
    (store2 : List (List String)) (ref2 : Option Nat)
    (hmg : ∀ i, model_gen i ≠ .error .completed)
    (hres : (gen_multiple gs e num data model_gen ctr store ref).1 =
      .error .completed) :
    (gen_multiple ((gen_multiple gs e num data model_gen ctr store ref).2.1) e num2
      data2 model_gen2 ctr2 store2 ref2).1 = .error .completed := by
  obtain ⟨hmv, hstate⟩ :=
    gen_multiple_completed_state gs e num data model_gen ctr store ref hmg hres
  rw [hstate]
  unfold gen_multiple
  rw [if_pos (Or.inr rfl)]
  have hmv2 : maybe_move_to_next_step
      { ({ gs with experiment_name := some e.name } : GenerationStrategyState) with
        experiment_name := some e.name } e true =
      (.error .completed, { gs with experiment_name := some e.name }) := hmv
  rw [hmv2]

/-- C4 (amended): across every sequence of calls to `gen`, `_gen_multiple`
and `current_generator_run_limit`, the current-step index is monotonically
non-decreasing; and once a generation attempt has raised the
strategy-completed signal, a further generation attempt against the
experiment in an unchanged state (with a model oracle that does not itself
raise the signal) fails with that signal again. -/
theorem strategy_curr_monotone_and_completed_sticky :
    (∀ (ops : List GSOp) (c : GSConfig),
      c.gs.curr ≤ (ops.foldl exec_op c).gs.curr) ∧
    (∀ (gs : GenerationStrategyState) (e : Experiment) (num : Int)
      (data : Option (Finset Nat)) (model_gen : Nat → Except GSErr GeneratorRun)
      (ctr : Nat) (store : List (List String)) (ref : Option Nat)
      (num2 : Int) (data2 : Option (Finset Nat))
      (model_gen2 : Nat → Except GSErr GeneratorRun) (ctr2 : Nat)
      (store2 : List (List String)) (ref2 : Option Nat),
      (∀ i, model_gen i ≠ .error .completed) →
      (gen_multiple gs e num data model_gen ctr store ref).1 = .error .completed →
      (gen_multiple ((gen_multiple gs e num data model_gen ctr store ref).2.1) e
        num2 data2 model_gen2 ctr2 store2 ref2).1 = .error .completed) := by
  constructor
  · intro ops
    induction ops with
    | nil => intro c; exact Nat.le_refl _
    | cons op rest ih =>
      intro c
      exact (exec_op_curr_mono c op).trans (ih (exec_op c op))
  · intro gs e num data model_gen ctr store ref num2 data2 model_gen2 ctr2 store2
      ref2 hmg hres
    exact gen_multiple_completed_sticky gs e num data model_gen ctr store ref num2
      data2 model_gen2 ctr2 store2 ref2 hmg hres

/-- C4 counterexample: the strategy raises the strategy-completed signal
(budget of 1 met by the running trial, nothing left to complete, last
step), but after that trial fails the very next generation attempt
succeeds — completion is not permanent when the experiment state changes. -/
theorem strategy_completed_not_permanent :
    (gen_multiple gsC4 expC4Running 1 none stubModelC4 0 [] none).1 =
      .error .completed ∧
    (gen_multiple ((gen_multiple gsC4 expC4Running 1 none stubModelC4 0 [] none).2.1)
        expC4Failed 1 none stubModelC4 0 [] none).1 =
      .ok [⟨[⟨"a"⟩], some 0⟩] := by
  refine ⟨by decide, by decide⟩

/-- C4 witness: the concrete completed scenario re-raises the completion
signal on an identical repeat call. -/
theorem strategy_curr_monotone_and_completed_sticky_witness :
    (gen_multiple ((gen_multiple gsC4 expC4Running 1 none stubModelC4 0 [] none).2.1)
        expC4Running 1 none stubModelC4 0 [] none).1 = .error .completed := by
  exact strategy_curr_monotone_and_completed_sticky.2 gsC4 expC4Running 1 none
    stubModelC4 0 [] none 1 none stubModelC4 0 [] none
    (fun i => by simp [stubModelC4]) (by decide)

/-- C9 (amended): `clone_reset` yields a strategy with the same step
definitions, an empty generator-run history and the current step reset to
the first step; the original keeps all of its state except that, when its
display name was unset, the lazily derived name becomes cached on it. -/
theorem clone_reset_spec (gs : GenerationStrategyState) :
    (clone_reset gs).1.steps = gs.steps ∧
    (clone_reset gs).1.generator_runs = [] ∧
    (clone_reset gs).1.curr = 0 ∧
    (clone_reset gs).2.steps = gs.steps ∧
    (clone_reset gs).2.curr = gs.curr ∧
    (clone_reset gs).2.generator_runs = gs.generator_runs ∧
    (clone_reset gs).2.experiment_name = gs.experiment_name ∧
    (clone_reset gs).2.model = gs.model ∧
    (clone_reset gs).2.seen_trial_indices_by_status =
      gs.seen_trial_indices_by_status ∧
    ((gs.name = none ∧ (clone_reset gs).2.name = some (name_computed gs)) ∨
      (clone_reset gs).2.name = gs.name) := by
  unfold clone_reset name_property
  cases hn : gs.name with
  | some n =>
    exact ⟨rfl, rfl, rfl, rfl, rfl, rfl, rfl, rfl, rfl, Or.inr hn⟩
  | none =>
    exact ⟨rfl, rfl, rfl, rfl, rfl, rfl, rfl, rfl, rfl, Or.inl ⟨rfl, rfl⟩⟩

/-- C9 counterexample: on an unnamed strategy, `clone_reset` mutates the
original — reading `self.name` caches the derived display name on it, so
"the original strategy's state is not modified" fails. -/
theorem clone_reset_mutates_name_cache :
    gsC9.name = none ∧ (clone_reset gsC9).2.name = some "sobol" := by
  refine ⟨rfl, by decide⟩

theorem post_init_error_eq_none (s : GenerationStep) :
    s.post_init_error = none ↔
      (¬(s.enforce_num_trials = true ∧ 0 ≤ s.num_trials ∧
          s.num_trials < s.min_trials_observed) ∧ s.model ≠ .invalid) := by
  unfold GenerationStep.post_init_error
  by_cases hb : s.enforce_num_trials = true ∧ 0 ≤ s.num_trials ∧
      s.num_trials < s.min_trials_observed
  · rw [if_pos hb]
    simp [hb]
  · rw [if_neg hb]
    cases hm : s.model with
    | registry k => simp [hb, hm]
    | factory k => simp [hb, hm]
    | invalid => simp [hb, hm]

theorem strategy_step_error_eq_none (total idx : Nat) (s : GenerationStep) :
    strategy_step_error total idx s = none ↔
      ((∀ mp, s.max_parallelism = some mp → 1 ≤ mp) ∧
       (s.num_trials = -1 ∧ s.completion_criteria.length = 0 →
         ¬ idx < total - 1) ∧
       (1 ≤ s.num_trials ∨ s.num_trials = -1)) := by
  unfold strategy_step_error
  by_cases h1 : s.num_trials = -1 ∧ s.completion_criteria.length < 1
  · rw [if_pos h1]
    by_cases h2 : idx < total - 1
    · rw [if_pos h2]
      constructor
      · intro hcon
        exact absurd hcon (by simp)
      · rintro ⟨-, hfinal, -⟩
        exact absurd h2 (hfinal ⟨h1.1, by omega⟩)
    · rw [if_neg h2]
      constructor
      · intro hmp
        refine ⟨?_, fun _ => h2, Or.inr h1.1⟩
        intro mp hm
        by_contra hlt
        rw [hm] at hmp
        simp [show mp < 1 from by omega] at hmp
      · rintro ⟨hmp, -, -⟩
        cases hm : s.max_parallelism with
        | none => rfl
        | some mp =>
          simp [show ¬ mp < 1 from by have := hmp mp hm; omega]
  · rw [if_neg h1]
    by_cases h3 : s.num_trials < 1 ∧ s.num_trials ≠ -1
    · rw [if_pos h3]
      constructor
      · intro hcon
        exact absurd hcon (by simp)
      · rintro ⟨-, -, hpos⟩
        rcases hpos with hge | hm1
        · omega
        · exact absurd hm1 h3.2
    · rw [if_neg h3]
      constructor
      · intro hmp
        refine ⟨?_, ?_, by omega⟩
        · intro mp hm
          by_contra hlt
          rw [hm] at hmp
          simp [show mp < 1 from by omega] at hmp
        · intro hcrit
          exact absurd ⟨hcrit.1, by omega⟩ h1
      · rintro ⟨hmp, -, -⟩
        cases hm : s.max_parallelism with
        | none => rfl
        | some mp =>
          simp [show ¬ mp < 1 from by have := hmp mp hm; omega]

theorem strategy_init_error_loop_eq_none (total : Nat) :
    ∀ (l : List GenerationStep) (start : Nat),
      strategy_init_error_loop total start l = none ↔
        ∀ i s, l[i]? = some s → strategy_step_error total (start + i) s = none := by
  intro l
  induction l with
  | nil =>
    intro start
    constructor
    · intro _ i s hi
      simp at hi
    · intro _
      rfl
  | cons s0 rest ih =>
    intro start
    rw [strategy_init_error_loop]
    cases h0 : strategy_step_error total start s0 with
    | some c =>
      simp only []
      constructor
      · intro hcon
        exact absurd hcon (by simp)
      · intro hall
        have := hall 0 s0 (by simp)
        rw [Nat.add_zero] at this
        rw [h0] at this
        exact absurd this (by simp)
    | none =>
      simp only []
      rw [ih (start + 1)]
      constructor
      · intro hall i s hi
        cases i with
        | zero =>
          have hss : s0 = s := by simpa using hi
          rw [← hss, Nat.add_zero, h0]
        | succ j =>
          have := hall j s (by simpa using hi)
          rwa [show start + 1 + j = start + (j + 1) from by omega] at this
      · intro hall j s hj
        have := hall (j + 1) s (by simpa using hj)
        rwa [show start + (j + 1) = start + 1 + j from by omega] at this

/-- C8 (amended): step/strategy construction succeeds exactly when every
step avoids the configuration-error causes — bad budget/min-observed
relationship, a non-model/non-callable model reference, a non-positive
parallelism cap, an unlimited budget (-1) on a non-final step without
completion criteria, or (the cause the claim omitted) a budget that is
neither positive nor -1; in particular a step with `num_trials = 0` is
rejected. -/
theorem construct_strategy_error_iff (steps : List GenerationStep) :
    construct_strategy_error steps = none ↔
      ∀ i s, steps[i]? = some s → step_config_ok steps.length i s := by
  unfold construct_strategy_error
  cases hf : steps.findSome? GenerationStep.post_init_error with
  | some c =>
    simp only []
    constructor
    · intro hcon
      exact absurd hcon (by simp)
    · intro hall
      have hnone : steps.findSome? GenerationStep.post_init_error = none :=
        List.findSome?_eq_none_iff.mpr (fun x hx => by
          obtain ⟨i, hi⟩ := List.mem_iff_getElem?.mp hx
          have hok := hall i x hi
          exact (post_init_error_eq_none x).mpr ⟨hok.1, hok.2.1⟩)
      rw [hf] at hnone
      exact absurd hnone (by simp)
  | none =>
    simp only []
    rw [strategy_init_error_loop_eq_none steps.length steps 0]
    rw [List.findSome?_eq_none_iff] at hf
    constructor
    · intro hall i s hi
      have hpost := (post_init_error_eq_none s).mp
        (hf s (List.mem_iff_getElem?.mpr ⟨i, hi⟩))
      have hloop := (strategy_step_error_eq_none steps.length (0 + i) s).mp
        (hall i s hi)
      rw [Nat.zero_add] at hloop
      exact ⟨hpost.1, hpost.2, hloop.1, hloop.2.1, hloop.2.2⟩
    · intro hall i s hi
      have hok := hall i s hi
      rw [Nat.zero_add]
      exact (strategy_step_error_eq_none steps.length i s).mpr
        ⟨hok.2.2.1, hok.2.2.2.1, hok.2.2.2.2⟩

/-- C8 counterexample: constructing a `GenerationStrategy` containing a
step with `num_trials = 0` (and otherwise valid fields) raises a
configuration error ("`num_trials` must be positive or -1"), contrary to
the claim that it succeeds and that `num_trials` may be any non-negative
count. -/
theorem strategy_num_trials_zero_rejected :
    construct_strategy_error [stepC8] = some .numTrialsNotPositive := by
  decide

end AxSpec
